import Mathlib

set_option autoImplicit false
set_option linter.unnecessarySeqFocus false

namespace SBMG

/-!
Verification of the SBMG complaint-portal core against its specification.

The frontend sources (src/frontend/src/utils.ts,
src/frontend/src/components/WorkerDashboard.tsx, src/frontend/src/types.ts,
src/frontend/src/api.ts) are embedded directly.  The backend (FastAPI
controllers) is not part of the source tree; where a property is decided by
that missing code, the corresponding definition is modelled from the
specification and is marked as such in its doc comment.
-/

/-! ## Embedding of src/frontend/src/utils.ts -/

/-- Embedding of `User` from src/frontend/src/types.ts.  `roles` is `string[]` in the
declared type, but `utils.ts` guards against it being absent at runtime
(`!user.roles`), so it is embedded as an `Option`. -/
structure User where
  id : Nat
  username : String
  roles : Option (List String)
  deriving Repr, DecidableEq

/-- Embedding of `ROLE_PRECEDENCE` from utils.ts: role precedence order (highest to lowest). -/
def ROLE_PRECEDENCE : List String := ["ADMIN", "CEO", "BDO", "VDO"]

/-- Embedding of `getUserHighestRole` from utils.ts.  Returns the highest-precedence
recognized role, otherwise `user.roles[0] || null` (so a falsy — empty —
first role yields `null`), and `null` when `roles` is missing or empty. -/
def getUserHighestRole (user : User) : Option String :=
  match user.roles with
  | none => none
  | some rs =>
    if rs.length = 0 then none
    else
      match ROLE_PRECEDENCE.find? (fun r => rs.contains r) with
      | some r => some r
      | none =>
        match rs.head? with
        | none => none
        | some r => if r = "" then none else some r

/-- Embedding of `userHasRole` from utils.ts: true when the user has any of the given roles. -/
def userHasRole (user : User) (roles : List String) : Bool :=
  match user.roles with
  | none => false
  | some rs => if rs.length = 0 then false else roles.any (fun r => rs.contains r)

/-- Embedding of `userHasAdminPrivileges` from utils.ts. -/
def userHasAdminPrivileges (user : User) : Bool :=
  userHasRole user ["ADMIN", "CEO", "BDO"]

/-- Embedding of `userIsWorker` from utils.ts: despite its name it tests for the `VDO` role. -/
def userIsWorker (user : User) : Bool :=
  userHasRole user ["VDO"]

/-! ## Embedding of src/frontend/src/components/WorkerDashboard.tsx -/

/-- The fields of `WorkerTaskResponse` that the dashboard's gating logic reads. -/
structure WorkerTask where
  id : Nat
  status_name : String
  deriving Repr, DecidableEq

/-- Embedding of `const userRole = user.roles?.[0] || ''` in WorkerDashboard.tsx. -/
def userRoleOf (u : User) : String :=
  match (u.roles.getD []).head? with
  | none => ""
  | some r => r

/-- Embedding of `canUploadMedia` from WorkerDashboard.tsx. -/
def canUploadMedia (isWorker isVDO : Bool) (t : WorkerTask) : Bool :=
  (isWorker || isVDO) && ["IN_PROGRESS", "ASSIGNED"].contains t.status_name

/-- Embedding of `canMarkCompleted` from WorkerDashboard.tsx: workers may mark tasks
completed when the task is `IN_PROGRESS` or `ASSIGNED`. -/
def canMarkCompleted (isWorker : Bool) (t : WorkerTask) : Bool :=
  isWorker && ["IN_PROGRESS", "ASSIGNED"].contains t.status_name

/-- Embedding of `canResolveComplaint` from WorkerDashboard.tsx: VDOs may resolve
`COMPLETED` complaints. -/
def canResolveComplaint (isVDO : Bool) (t : WorkerTask) : Bool :=
  isVDO && t.status_name == "COMPLETED"

/-- The two `workerApi` mutation calls the dashboard's action buttons issue. -/
inductive WorkerApiCall
  | markComplaintCompleted
  | resolveComplaint
  deriving Repr, DecidableEq

/-- The API-calling action buttons rendered for a task in
WorkerDashboard.tsx (lines 377–406): for `ASSIGNED` tasks a "Start Work"
button whose `onClick` is `markComplaintCompleted`, for `IN_PROGRESS`
tasks a "Mark as Completed" button with the same `onClick`, and for VDOs a
"Resolve & Close" button leading to `resolveComplaint`. -/
def actionButtons (isWorker isVDO : Bool) (t : WorkerTask) : List (String × WorkerApiCall) :=
  (if canMarkCompleted isWorker t && t.status_name == "ASSIGNED" then
      [("Start Work", WorkerApiCall.markComplaintCompleted)]
    else []) ++
  (if canMarkCompleted isWorker t && t.status_name == "IN_PROGRESS" then
      [("Mark as Completed", WorkerApiCall.markComplaintCompleted)]
    else []) ++
  (if canResolveComplaint isVDO t then
      [("Resolve & Close", WorkerApiCall.resolveComplaint)]
    else [])

/-! ## Theorems for claims C9, C10, C5 -/

/-- C9: `userIsWorker(user)` returns true exactly when `user.roles` contains
the string `'VDO'`; in particular for a user whose roles list is exactly
`['WORKER']` it returns false. -/
theorem userIsWorker_iff_roles_contain_VDO :
    (∀ u : User, userIsWorker u = true ↔ ∃ rs, u.roles = some rs ∧ "VDO" ∈ rs) ∧
    userIsWorker { id := 1, username := "w", roles := some ["WORKER"] } = false := by
  constructor
  · intro u
    cases hu : u.roles with
    | none => simp [userIsWorker, userHasRole, hu]
    | some rs =>
      by_cases hrs : rs.length = 0
      · have : rs = [] := List.length_eq_zero.mp hrs
        subst this
        simp [userIsWorker, userHasRole, hu]
      · simp [userIsWorker, userHasRole, hu, hrs]
  · decide

/-- C9 witness: instantiating the characterization at a concrete VDO user. -/
theorem userIsWorker_iff_roles_contain_VDO_witness :
    userIsWorker { id := 2, username := "v", roles := some ["VDO"] } = true :=
  (userIsWorker_iff_roles_contain_VDO.1 _).mpr ⟨["VDO"], rfl, by decide⟩

/-- C10 counterexample: for a user whose roles list is exactly `[""]`, the
claim says `getUserHighestRole` returns the first element `""`, but the
source's `user.roles[0] || null` maps the falsy empty string to `null`. -/
theorem getUserHighestRole_empty_string_counterexample :
    (([""] : List String).head? = some "") ∧
    getUserHighestRole { id := 0, username := "u", roles := some [""] } = none := by
  decide

/-- C10 (amended): `getUserHighestRole` returns `'ADMIN'` whenever present,
else `'CEO'`, else `'BDO'`, else `'VDO'`; when none of the four recognized
roles is present it returns the first element of `user.roles` unless that
element is the empty string (which yields `null`, by `roles[0] || null`);
it returns `null` when `user.roles` is empty or missing. -/
theorem getUserHighestRole_precedence_spec :
    (∀ u : User, u.roles = none → getUserHighestRole u = none) ∧
    (∀ (u : User) (rs : List String), u.roles = some rs →
      (rs = [] → getUserHighestRole u = none) ∧
      ("ADMIN" ∈ rs → getUserHighestRole u = some "ADMIN") ∧
      ("ADMIN" ∉ rs → "CEO" ∈ rs → getUserHighestRole u = some "CEO") ∧
      ("ADMIN" ∉ rs → "CEO" ∉ rs → "BDO" ∈ rs → getUserHighestRole u = some "BDO") ∧
      ("ADMIN" ∉ rs → "CEO" ∉ rs → "BDO" ∉ rs → "VDO" ∈ rs →
        getUserHighestRole u = some "VDO") ∧
      ("ADMIN" ∉ rs → "CEO" ∉ rs → "BDO" ∉ rs → "VDO" ∉ rs →
        getUserHighestRole u =
          match rs.head? with
          | none => none
          | some r => if r = "" then none else some r)) := by
  constructor
  · intro u hu
    simp [getUserHighestRole, hu]
  · intro u rs hu
    refine ⟨?_, ?_, ?_, ?_, ?_, ?_⟩
    · intro hrs
      subst hrs
      simp [getUserHighestRole, hu]
    · intro hmem
      have hne : rs.length ≠ 0 := by
        intro h0
        rw [List.length_eq_zero.mp h0] at hmem
        exact (List.not_mem_nil _) hmem
      simp [getUserHighestRole, hu, hne, ROLE_PRECEDENCE, List.find?, hmem]
    · intro hA hmem
      have hne : rs.length ≠ 0 := by
        intro h0
        rw [List.length_eq_zero.mp h0] at hmem
        exact (List.not_mem_nil _) hmem
      simp [getUserHighestRole, hu, hne, ROLE_PRECEDENCE, List.find?, hA, hmem]
    · intro hA hC hmem
      have hne : rs.length ≠ 0 := by
        intro h0
        rw [List.length_eq_zero.mp h0] at hmem
        exact (List.not_mem_nil _) hmem
      simp [getUserHighestRole, hu, hne, ROLE_PRECEDENCE, List.find?, hA, hC, hmem]
    · intro hA hC hB hmem
      have hne : rs.length ≠ 0 := by
        intro h0
        rw [List.length_eq_zero.mp h0] at hmem
        exact (List.not_mem_nil _) hmem
      simp [getUserHighestRole, hu, hne, ROLE_PRECEDENCE, List.find?, hA, hC, hB, hmem]
    · intro hA hC hB hV
      by_cases hrs : rs.length = 0
      · rw [List.length_eq_zero.mp hrs]
        rw [List.length_eq_zero.mp hrs] at hu
        simp [getUserHighestRole, hu]
      · simp [getUserHighestRole, hu, hrs, ROLE_PRECEDENCE, List.find?, hA, hC, hB, hV]

/-- C10 witness: the amended characterization evaluated at concrete users. -/
theorem getUserHighestRole_precedence_spec_witness :
    getUserHighestRole { id := 1, username := "a", roles := some ["WORKER", "ADMIN"] }
      = some "ADMIN" ∧
    getUserHighestRole { id := 2, username := "b", roles := some ["SUPERADMIN"] }
      = some "SUPERADMIN" := by
  constructor
  · exact ((getUserHighestRole_precedence_spec.2
      { id := 1, username := "a", roles := some ["WORKER", "ADMIN"] }
      ["WORKER", "ADMIN"] rfl).2.1 (by decide))
  · exact ((getUserHighestRole_precedence_spec.2
      { id := 2, username := "b", roles := some ["SUPERADMIN"] }
      ["SUPERADMIN"] rfl).2.2.2.2.2
      (by decide) (by decide) (by decide) (by decide))

/-- C5: for a worker viewing an `ASSIGNED` task, the rendered "Start Work"
button invokes `workerApi.markComplaintCompleted` — the very same completion
call the "Mark as Completed" button issues for `IN_PROGRESS` tasks — rather
than any operation targeting `IN_PROGRESS`. -/
theorem startWork_button_invokes_completion_call :
    actionButtons true false { id := 1, status_name := "ASSIGNED" } =
      [("Start Work", WorkerApiCall.markComplaintCompleted)] ∧
    actionButtons true false { id := 1, status_name := "IN_PROGRESS" } =
      [("Mark as Completed", WorkerApiCall.markComplaintCompleted)] := by
  decide

/-! ## Spec-modelled core: data model -/

/-- Modelled from the spec: complaint lifecycle states (§4.3); the backend
state machine is not under src/. -/
inductive Status
  | OPEN
  | ASSIGNED
  | IN_PROGRESS
  | COMPLETED
  | VERIFIED
  | CLOSED
  | INVALID
  deriving Repr, DecidableEq

/-- Modelled from the spec: staff roles (§3, Position); the backend identity
model is not under src/. -/
inductive Role
  | SUPERADMIN
  | ADMIN
  | CEO
  | BDO
  | VDO
  | WORKER
  deriving Repr, DecidableEq

/-- Modelled from the spec: error taxonomy (§7); the backend error types are
not under src/. -/
inductive Err
  | NotFoundError
  | ForbiddenError
  | InvalidTransitionError
  | ConflictError
  | ValidationError
  deriving Repr, DecidableEq

/-- Modelled from the spec: geography node kinds (§3, GeographyNode). -/
inductive NodeKind
  | DISTRICT
  | BLOCK
  | VILLAGE
  deriving Repr, DecidableEq

/-- Modelled from the spec: a geography tree node (§3). -/
structure GeographyNode where
  id : Nat
  kind : NodeKind
  parent_id : Option Nat
  deriving Repr, DecidableEq

/-- Modelled from the spec: the geography hierarchy (§4.1), a flat node list
with parent links. -/
structure Geography where
  nodes : List GeographyNode
  deriving Repr, DecidableEq

/-- Modelled from the spec: a time-bounded role assignment (§3, Position). -/
structure Position where
  holder_id : Nat
  role : Role
  scope_node_id : Option Nat
  start_date : Nat
  end_date : Option Nat
  deriving Repr, DecidableEq

/-- Modelled from the spec: an actor together with the positions they hold
(§3); the backend identity model is not under src/. -/
structure Actor where
  id : Nat
  positions : List Position
  deriving Repr, DecidableEq

/-- Modelled from the spec: a complaint record (§3). -/
structure Complaint where
  id : Nat
  village_id : Nat
  description : String
  mobile_number : Option String
  status : Status
  assigned_worker_id : Option Nat
  comments : List String
  media : List String
  deriving Repr, DecidableEq

/-! ## Spec-modelled core: geography queries and the authorization resolver -/

/-- Modelled from the spec: all village ids of the tree, the jurisdiction of
SUPERADMIN/ADMIN (§4.2). -/
def allVillageIds (g : Geography) : List Nat :=
  (g.nodes.filter (fun n => n.kind == NodeKind.VILLAGE)).map (fun n => n.id)

/-- Modelled from the spec: `ancestors(nodeId)` of §4.1 restricted to a
village — the village itself, its block, and its district. -/
def ancestorIds (g : Geography) (villageId : Nat) : List Nat :=
  match g.nodes.find? (fun n => n.id == villageId) with
  | none => []
  | some v =>
    v.id ::
      (match v.parent_id with
      | none => []
      | some b =>
        b ::
          (match g.nodes.find? (fun n => n.id == b) with
          | none => []
          | some bn =>
            match bn.parent_id with
            | none => []
            | some d => [d]))

/-- Modelled from the spec: `descendants(nodeId)` of §4.1 — the set of
village ids a scope node covers. -/
def descendantVillages (g : Geography) (nodeId : Nat) : List Nat :=
  (g.nodes.filter
      (fun n => n.kind == NodeKind.VILLAGE && (ancestorIds g n.id).contains nodeId)).map
    (fun n => n.id)

/-- Modelled from the spec: a position is active when `end_date` is null or
in the future (§3). -/
def positionActive (now : Nat) (p : Position) : Bool :=
  match p.end_date with
  | none => true
  | some d => now < d

/-- Modelled from the spec: the actor's currently active positions (§4.2). -/
def activePositions (now : Nat) (a : Actor) : List Position :=
  a.positions.filter (fun p => positionActive now p)

/-- Modelled from the spec: the villages one position grants (§4.2):
SUPERADMIN/ADMIN resolve to all villages, scoped roles to the
descendant-village set of their scope node. -/
def positionVillages (g : Geography) (p : Position) : List Nat :=
  match p.role with
  | Role.SUPERADMIN => allVillageIds g
  | Role.ADMIN => allVillageIds g
  | _ =>
    match p.scope_node_id with
    | none => []
    | some nid => descendantVillages g nid

/-- Modelled from the spec: `resolveJurisdiction(actor)` (§4.2) — the union,
over the actor's active positions, of the villages each position grants;
the backend authorization resolver is not under src/. -/
def resolveJurisdiction (g : Geography) (now : Nat) (a : Actor) : List Nat :=
  (activePositions now a).foldr (fun p acc => positionVillages g p ++ acc) []

/-- Modelled from the spec: `canAccessVillage(actor, villageId)` (§4.2) —
membership in the resolved jurisdiction. -/
def canAccessVillage (g : Geography) (now : Nat) (a : Actor) (villageId : Nat) : Bool :=
  (resolveJurisdiction g now a).contains villageId

/-- Modelled from the spec: the result of `villageFilter(actor)` (§4.2) —
either the "ALL" marker or an explicit village-id set. -/
inductive VillageFilter
  | ALL
  | ids (villageIds : List Nat)
  deriving Repr, DecidableEq

/-- Modelled from the spec: `villageFilter(actor)` (§4.2) used to scope bulk
reads; "ALL" for an active SUPERADMIN/ADMIN position, otherwise the
resolved village set. -/
def villageFilter (g : Geography) (now : Nat) (a : Actor) : VillageFilter :=
  if (activePositions now a).any
      (fun p => p.role == Role.SUPERADMIN || p.role == Role.ADMIN) then
    VillageFilter.ALL
  else
    VillageFilter.ids (resolveJurisdiction g now a)

/-- Modelled from the spec: `listComplaints(actor, …)` (§6) scoped by
`villageFilter` — the worker's broad, village-based read scope. -/
def listComplaints (g : Geography) (now : Nat) (a : Actor) (cs : List Complaint) :
    List Complaint :=
  match villageFilter g now a with
  | VillageFilter.ALL => cs
  | VillageFilter.ids vs => cs.filter (fun c => vs.contains c.village_id)

/-! ## Theorem for claim C4 -/

/-- C4: an actor with zero active positions resolves to the empty
jurisdiction, every `canAccessVillage` check returns false, and the bulk
filter is the empty id set — fail closed, neither "ALL" nor an error. -/
theorem zero_active_positions_fail_closed (g : Geography) (now : Nat) (a : Actor)
    (h : activePositions now a = []) :
    resolveJurisdiction g now a = [] ∧
    (∀ v, canAccessVillage g now a v = false) ∧
    villageFilter g now a = VillageFilter.ids [] := by
  have hj : resolveJurisdiction g now a = [] := by
    simp [resolveJurisdiction, h]
  refine ⟨hj, ?_, ?_⟩
  · intro v
    simp [canAccessVillage, hj]
  · simp [villageFilter, h, hj]

/-- C4 witness: a concrete actor whose only position has expired. -/
theorem zero_active_positions_fail_closed_witness :
    activePositions 10 { id := 4, positions := [⟨4, Role.VDO, some 3, 0, some 5⟩] } = [] ∧
    resolveJurisdiction ⟨[]⟩ 10 { id := 4, positions := [⟨4, Role.VDO, some 3, 0, some 5⟩] } = [] ∧
    canAccessVillage ⟨[]⟩ 10 { id := 4, positions := [⟨4, Role.VDO, some 3, 0, some 5⟩] } 3 = false := by
  have h : activePositions 10 { id := 4, positions := [⟨4, Role.VDO, some 3, 0, some 5⟩] } = [] := by
    decide
  have hmain := zero_active_positions_fail_closed ⟨[]⟩ 10
    { id := 4, positions := [⟨4, Role.VDO, some 3, 0, some 5⟩] } h
  exact ⟨h, hmain.1, hmain.2.1 3⟩

/-! ## Spec-modelled core: the complaint lifecycle state machine -/

/-- Modelled from the spec: the transition table of §4.3; the backend state
machine is not under src/.  `validEdge s t` holds exactly for the table's
from/to pairs. -/
def validEdge (s t : Status) : Bool :=
  match s, t with
  | Status.OPEN, Status.ASSIGNED => true
  | Status.ASSIGNED, Status.IN_PROGRESS => true
  | Status.IN_PROGRESS, Status.COMPLETED => true
  | Status.COMPLETED, Status.VERIFIED => true
  | Status.VERIFIED, Status.CLOSED => true
  | Status.OPEN, Status.INVALID => true
  | Status.ASSIGNED, Status.INVALID => true
  | _, _ => false

/-- Modelled from the spec: the "Actor role" column of the §4.3 transition
table (BDO+ meaning BDO/CEO/ADMIN/SUPERADMIN, VDO+ meaning VDO and above). -/
def roleAllowedFor (s t : Status) (r : Role) : Bool :=
  match s, t with
  | Status.OPEN, Status.ASSIGNED =>
    [Role.BDO, Role.CEO, Role.ADMIN, Role.SUPERADMIN].contains r
  | Status.ASSIGNED, Status.IN_PROGRESS => r == Role.WORKER
  | Status.IN_PROGRESS, Status.COMPLETED => r == Role.WORKER
  | Status.COMPLETED, Status.VERIFIED =>
    [Role.VDO, Role.BDO, Role.CEO, Role.ADMIN, Role.SUPERADMIN].contains r
  | Status.VERIFIED, Status.CLOSED =>
    [Role.VDO, Role.BDO, Role.CEO, Role.ADMIN, Role.SUPERADMIN].contains r
  | Status.OPEN, Status.INVALID =>
    [Role.WORKER, Role.VDO, Role.BDO, Role.CEO, Role.ADMIN, Role.SUPERADMIN].contains r
  | Status.ASSIGNED, Status.INVALID =>
    [Role.WORKER, Role.VDO, Role.BDO, Role.CEO, Role.ADMIN, Role.SUPERADMIN].contains r
  | _, _ => false

/-- Modelled from the spec: the write-authorization gate of §4.2/§4.3 — some
active position allows the role for this edge, covers the complaint's
village, and a WORKER must additionally be the assignee
(`assigned_worker_id == actor.id`). -/
def canMutate (g : Geography) (now : Nat) (a : Actor) (c : Complaint) (target : Status) :
    Bool :=
  (activePositions now a).any fun p =>
    roleAllowedFor c.status target p.role &&
    (positionVillages g p).contains c.village_id &&
    (p.role != Role.WORKER || c.assigned_worker_id == some a.id)

/-- Modelled from the spec: applying a transition's state change — the new
status, with the optional note appended to the append-only comments (§4.3). -/
def applyTransition (c : Complaint) (target : Status) (note : Option String) : Complaint :=
  { c with status := target, comments := c.comments ++ note.toList }

/-- Modelled from the spec: `transition(complaintId, targetStatus, actor,
note?)` (§6, §4.3); the backend controllers are not under src/.  Unknown id
fails with `NotFoundError`; authorization is re-checked on every call and
fails closed with `ForbiddenError`; a from/to pair outside the table fails
with `InvalidTransitionError`; completing without any comment or media
attachment, or invalidating without an explanatory comment, fails with
`ValidationError`. -/
def transition (g : Geography) (now : Nat) (cs : List Complaint) (cid : Nat)
    (target : Status) (a : Actor) (note : Option String) : Except Err Complaint :=
  match cs.find? (fun c => c.id == cid) with
  | none => Except.error Err.NotFoundError
  | some c =>
    if canMutate g now a c target then
      if validEdge c.status target then
        if target == Status.COMPLETED && c.comments.isEmpty && c.media.isEmpty
            && note.isNone then
          Except.error Err.ValidationError
        else if target == Status.INVALID && note.isNone then
          Except.error Err.ValidationError
        else
          Except.ok (applyTransition c target note)
      else Except.error Err.InvalidTransitionError
    else Except.error Err.ForbiddenError

/-- A successful `transition` call moving some stored complaint from status
`s` to status `t`. -/
def TransitionSucceeds (s t : Status) : Prop :=
  ∃ g now cs cid a note c0 c',
    cs.find? (fun c => c.id == cid) = some c0 ∧ c0.status = s ∧
    transition g now cs cid t a note = Except.ok c'

/-- The status sequences a single complaint can exhibit, most recent first:
created in `OPEN`, then extended only by successful `transition` calls. -/
inductive MachineTrace : List Status → Prop
  | init : MachineTrace [Status.OPEN]
  | step {tr : List Status} {s t : Status} :
      MachineTrace (s :: tr) → TransitionSucceeds s t → MachineTrace (t :: s :: tr)

/-- A status sequence (most recent first) is a walk of the transition table
when every consecutive pair is a table edge. -/
def isWalkRev : List Status → Bool
  | t :: s :: rest => validEdge s t && isWalkRev (s :: rest)
  | _ => true

lemma transitionSucceeds_validEdge {s t : Status} (h : TransitionSucceeds s t) :
    validEdge s t = true := by
  obtain ⟨g, now, cs, cid, a, note, c0, c', hfind, hstat, hok⟩ := h
  unfold transition at hok
  rw [hfind] at hok
  dsimp only at hok
  split_ifs at hok <;> simp_all

/-! ## Theorem for claim C1 -/

/-- C1: every status sequence a complaint exhibits under the lifecycle
machine is a valid walk of the transition table, and the table has no
skipping edges — in particular no `OPEN → VERIFIED`, no
`ASSIGNED → COMPLETED`, no `COMPLETED → CLOSED`, and `INVALID` is reachable
only from `OPEN` or `ASSIGNED`. -/
theorem statusTrace_is_valid_walk :
    (∀ tr, MachineTrace tr → isWalkRev tr = true) ∧
    validEdge Status.OPEN Status.VERIFIED = false ∧
    validEdge Status.ASSIGNED Status.COMPLETED = false ∧
    validEdge Status.COMPLETED Status.CLOSED = false ∧
    (∀ s, validEdge s Status.INVALID = true ↔ (s = Status.OPEN ∨ s = Status.ASSIGNED)) := by
  refine ⟨?_, rfl, rfl, rfl, ?_⟩
  · intro tr h
    induction h with
    | init => rfl
    | step hprev hstep ih =>
      show (validEdge _ _ && isWalkRev _) = true
      rw [transitionSucceeds_validEdge hstep, ih]
      rfl
  · intro s
    cases s <;> simp [validEdge]

/-- Concrete three-level geography: district 1 ⊃ block 2 ⊃ village 3. -/
def demoGeo : Geography :=
  ⟨[⟨1, NodeKind.DISTRICT, none⟩, ⟨2, NodeKind.BLOCK, some 1⟩, ⟨3, NodeKind.VILLAGE, some 2⟩]⟩

/-- A BDO with an active position scoped to block 2. -/
def demoBDO : Actor := ⟨9, [⟨9, Role.BDO, some 2, 0, none⟩]⟩

/-- A freshly created, unassigned complaint in village 3. -/
def demoOpenComplaint : Complaint :=
  { id := 1, village_id := 3, description := "pothole", mobile_number := some "9999900000"
  , status := Status.OPEN, assigned_worker_id := none, comments := [], media := [] }

/-- C1 witness: a trace actually produced by a successful `transition`
(the demo BDO assigning the demo complaint) is accepted as a valid walk. -/
theorem statusTrace_is_valid_walk_witness :
    isWalkRev [Status.ASSIGNED, Status.OPEN] = true := by
  have hts : TransitionSucceeds Status.OPEN Status.ASSIGNED :=
    ⟨demoGeo, 0, [demoOpenComplaint], 1, demoBDO, none, demoOpenComplaint,
      applyTransition demoOpenComplaint Status.ASSIGNED none, rfl, rfl, rfl⟩
  exact statusTrace_is_valid_walk.1 _ (MachineTrace.step MachineTrace.init hts)

/-! ## Theorem for claim C2 -/

/-- C2: the `IN_PROGRESS → COMPLETED` transition succeeds only when the
complaint carries at least one resolution comment or media attachment
(counting a note submitted with the request, which is appended as a
comment), and an attempt by the authorized assigned worker with no comment,
no media and no note is rejected with `ValidationError`. -/
theorem complete_requires_comment_or_media (g : Geography) (now : Nat)
    (cs : List Complaint) (cid : Nat) (a : Actor) (note : Option String) :
    (∀ c0 c', cs.find? (fun c => c.id == cid) = some c0 →
      transition g now cs cid Status.COMPLETED a note = Except.ok c' →
      (c0.comments ≠ [] ∨ c0.media ≠ [] ∨ note ≠ none) ∧
      ¬(c'.comments = [] ∧ c'.media = [])) ∧
    (∀ c0, cs.find? (fun c => c.id == cid) = some c0 →
      c0.status = Status.IN_PROGRESS →
      canMutate g now a c0 Status.COMPLETED = true →
      c0.comments = [] → c0.media = [] → note = none →
      transition g now cs cid Status.COMPLETED a note = Except.error Err.ValidationError) := by
  constructor
  · intro c0 c' hfind hok
    unfold transition at hok
    rw [hfind] at hok
    dsimp only at hok
    split_ifs at hok with h1 h2 h3 h4 <;> simp at hok
    have hkey : ¬(c0.comments = [] ∧ c0.media = [] ∧ note = none) := by
      rintro ⟨hcm, hm, hnote⟩
      exact h3 (by simp [hcm, hm, hnote])
    constructor
    · tauto
    · rw [← hok]
      rintro ⟨hcm, hm⟩
      simp only [applyTransition] at hcm hm
      rcases List.append_eq_nil.mp hcm with ⟨hc0, hnl⟩
      have hnote : note = none := by
        cases note with
        | none => rfl
        | some x => simp [Option.toList] at hnl
      exact hkey ⟨hc0, hm, hnote⟩
  · intro c0 hfind hstat hmut hcm hm hnote
    subst hnote
    unfold transition
    rw [hfind]
    dsimp only
    rw [if_pos hmut, hstat]
    simp [validEdge, hcm, hm]

/-- A WORKER with an active position scoped to village 3. -/
def demoWorker : Actor := ⟨5, [⟨5, Role.WORKER, some 3, 0, none⟩]⟩

/-- An in-progress complaint in village 3 assigned to worker 5, with no
comments and no media. -/
def demoInProgressComplaint : Complaint :=
  { id := 2, village_id := 3, description := "drain", mobile_number := none
  , status := Status.IN_PROGRESS, assigned_worker_id := some 5, comments := [], media := [] }

/-- C2 witness: the demo assigned worker attempting completion with no
comment, media or note receives `ValidationError`. -/
theorem complete_requires_comment_or_media_witness :
    transition demoGeo 0 [demoInProgressComplaint] 2 Status.COMPLETED demoWorker none =
      Except.error Err.ValidationError :=
  (complete_requires_comment_or_media demoGeo 0 [demoInProgressComplaint] 2 demoWorker
    none).2 demoInProgressComplaint rfl rfl rfl rfl rfl rfl

/-! ## Theorem for claim C3 -/

/-- A complaint in village 3 assigned to a different worker (id 6). -/
def demoOtherComplaint : Complaint :=
  { id := 7, village_id := 3, description := "litter", mobile_number := none
  , status := Status.ASSIGNED, assigned_worker_id := some 6, comments := [], media := [] }

/-- A complaint in village 3 assigned to the demo worker (id 5). -/
def demoOwnComplaint : Complaint :=
  { id := 8, village_id := 3, description := "leak", mobile_number := none
  , status := Status.ASSIGNED, assigned_worker_id := some 5, comments := [], media := [] }

/-- C3: a status mutation by an actor all of whose positions are WORKER
positions succeeds only on complaints whose `assigned_worker_id` is the
actor's own id; concretely, the demo worker's village-level read scope lists
a complaint assigned to another worker while mutating it is rejected with
`ForbiddenError` — the read scope is strictly broader than the write scope. -/
theorem worker_mutation_requires_assignment :
    (∀ g now cs cid target a note c0 c',
      (∀ p ∈ a.positions, p.role = Role.WORKER) →
      cs.find? (fun c => c.id == cid) = some c0 →
      transition g now cs cid target a note = Except.ok c' →
      c0.assigned_worker_id = some a.id) ∧
    (listComplaints demoGeo 0 demoWorker [demoOtherComplaint] = [demoOtherComplaint] ∧
     canAccessVillage demoGeo 0 demoWorker 3 = true ∧
     transition demoGeo 0 [demoOtherComplaint] 7 Status.IN_PROGRESS demoWorker none =
       Except.error Err.ForbiddenError) := by
  constructor
  · intro g now cs cid target a note c0 c' hroles hfind hok
    unfold transition at hok
    rw [hfind] at hok
    dsimp only at hok
    split_ifs at hok with h1 h2 h3 h4 <;> simp at hok
    unfold canMutate at h1
    rw [List.any_eq_true] at h1
    obtain ⟨p, hp_mem, hp⟩ := h1
    have hp_pos : p ∈ a.positions := (List.mem_filter.mp hp_mem).1
    have hrole : p.role = Role.WORKER := hroles p hp_pos
    rw [Bool.and_eq_true, Bool.and_eq_true] at hp
    obtain ⟨⟨-, -⟩, hlast⟩ := hp
    rw [hrole] at hlast
    simpa using hlast
  · exact ⟨rfl, rfl, rfl⟩

/-- C3 witness: a successful mutation by the demo worker (all of whose
positions are WORKER positions) implies the complaint was assigned to them. -/
theorem worker_mutation_requires_assignment_witness :
    demoOwnComplaint.assigned_worker_id = some demoWorker.id :=
  worker_mutation_requires_assignment.1 demoGeo 0 [demoOwnComplaint] 8 Status.IN_PROGRESS
    demoWorker none demoOwnComplaint
    (applyTransition demoOwnComplaint Status.IN_PROGRESS none)
    (by decide) rfl rfl

/-! ## Spec-modelled core: optimistic concurrency -/

/-- Modelled from the spec: the optimistic compare-and-swap write of §5 —
the backend persistence layer is not under src/.  A transition reads the
current status (`expected`); the write succeeds only if the stored status
(`current`) still equals it, otherwise the caller receives `ConflictError`. -/
def casWrite (current expected target : Status) : Except Err Status :=
  if current = expected then Except.ok target else Except.error Err.ConflictError

lemma validEdge_target_ne {s t : Status} (h : validEdge s t = true) : t ≠ s := by
  cases s <;> cases t <;> simp_all [validEdge]

/-! ## Theorem for claim C8 -/

/-- C8: two transition calls on the same complaint that both read status `s`
and attempt valid edges to different targets: under either serialization of
their conditional writes, the first write succeeds and the second receives
`ConflictError` — the losing write is rejected, never silently dropped. -/
theorem concurrent_transitions_exactly_one_succeeds (s t1 t2 : Status)
    (h1 : validEdge s t1 = true) (h2 : validEdge s t2 = true) (_hne : t1 ≠ t2) :
    (casWrite s s t1 = Except.ok t1 ∧ casWrite t1 s t2 = Except.error Err.ConflictError) ∧
    (casWrite s s t2 = Except.ok t2 ∧ casWrite t2 s t1 = Except.error Err.ConflictError) := by
  refine ⟨⟨?_, ?_⟩, ?_, ?_⟩
  · simp [casWrite]
  · simp [casWrite, validEdge_target_ne h1]
  · simp [casWrite]
  · simp [casWrite, validEdge_target_ne h2]

/-- C8 witness: concrete racing writes `OPEN → ASSIGNED` vs `OPEN → INVALID`. -/
theorem concurrent_transitions_exactly_one_succeeds_witness :
    casWrite Status.OPEN Status.OPEN Status.ASSIGNED = Except.ok Status.ASSIGNED ∧
    casWrite Status.ASSIGNED Status.OPEN Status.INVALID = Except.error Err.ConflictError :=
  (concurrent_transitions_exactly_one_succeeds Status.OPEN Status.ASSIGNED Status.INVALID
    rfl rfl (by decide)).1

/-! ## Citizen self-service status update (claim C6) -/

/-- The permitted `new_status` values of the citizen self-service update,
from the contract documented on `CitizenStatusUpdateRequest.new_status` in
src/frontend/src/types.ts: `"VERIFIED" or "RESOLVED"`. -/
def citizenStatusUpdateTargets : List String := ["VERIFIED", "RESOLVED"]

/-- Modelled from the spec: the backend citizen controller
(controllers/citizen.py) is not under src/; the permitted target statuses
come from the `CitizenStatusUpdateRequest` contract in types.ts, the
mobile-number check from the request shape (`complaint_id`,
`mobile_number`).  Returns the resulting status name. -/
def citizenUpdateComplaintStatus (c : Complaint) (mobile : String) (new_status : String) :
    Except Err String :=
  if citizenStatusUpdateTargets.contains new_status then
    if c.mobile_number == some mobile then Except.ok new_status
    else Except.error Err.ForbiddenError
  else Except.error Err.ValidationError

/-- A verified complaint filed by mobile number 9999900000. -/
def demoVerifiedComplaint : Complaint :=
  { id := 3, village_id := 3, description := "pit", mobile_number := some "9999900000"
  , status := Status.VERIFIED, assigned_worker_id := some 5
  , comments := ["done"], media := [] }

/-- C6 counterexample: `CLOSED` is not among the permitted citizen update
targets — a citizen request moving the demo `VERIFIED` complaint to
`CLOSED` is rejected, contradicting the claim that `CLOSED` is the target
status of the citizen close operation. -/
theorem citizen_close_target_not_CLOSED :
    citizenStatusUpdateTargets.contains "CLOSED" = false ∧
    citizenUpdateComplaintStatus demoVerifiedComplaint "9999900000" "CLOSED" =
      Except.error Err.ValidationError := by
  constructor
  · rfl
  · rfl

/-- C6 (amended): the citizen self-service status update only ever yields
`VERIFIED` or `RESOLVED` (the request contract's terminal being `RESOLVED`,
not `CLOSED`), while closing to `CLOSED` remains a staff (`VDO+`)
transition of the lifecycle table. -/
theorem citizen_update_targets (c : Complaint) (mobile s r : String)
    (h : citizenUpdateComplaintStatus c mobile s = Except.ok r) :
    (r = "VERIFIED" ∨ r = "RESOLVED") ∧
    validEdge Status.VERIFIED Status.CLOSED = true ∧
    citizenStatusUpdateTargets.contains "CLOSED" = false := by
  refine ⟨?_, rfl, rfl⟩
  unfold citizenUpdateComplaintStatus at h
  split_ifs at h with ht hm <;> simp at h
  subst h
  simpa [citizenStatusUpdateTargets] using ht

/-- C6 witness: a concrete accepted citizen update resolving the demo
complaint. -/
theorem citizen_update_targets_witness :
    ("RESOLVED" = "VERIFIED" ∨ ("RESOLVED" : String) = "RESOLVED") :=
  (citizen_update_targets demoVerifiedComplaint "9999900000" "RESOLVED" "RESOLVED" rfl).1

/-! ## Spec-modelled core: the assignment engine (claim C7) -/

/-- Modelled from the spec: the shared store the assignment engine reads —
geography, all positions, all complaints (§4.4, §6); the backend assignment
engine is not under src/. -/
structure Store where
  geography : Geography
  positions : List Position
  complaints : List Complaint
  deriving Repr, DecidableEq

/-- Modelled from the spec: a worker's current load — the number of
complaints assigned to them in a non-terminal working state
(`ASSIGNED`/`IN_PROGRESS`) (§4.4). -/
def workerLoad (cs : List Complaint) (w : Nat) : Nat :=
  (cs.filter fun c =>
    c.assigned_worker_id == some w &&
    (c.status == Status.ASSIGNED || c.status == Status.IN_PROGRESS)).length

/-- Modelled from the spec: the WORKERs holding an active position scoped to
the given village (§4.4). -/
def workerCandidates (now : Nat) (ps : List Position) (villageId : Nat) : List Position :=
  ps.filter fun p =>
    p.role == Role.WORKER && positionActive now p && p.scope_node_id == some villageId

/-- Modelled from the spec: strict preference between candidates — strictly
fewer non-terminal complaints, or an equal load and a strictly earlier
position `start_date` (§4.4). -/
def betterWorker (cs : List Complaint) (p q : Position) : Bool :=
  workerLoad cs p.holder_id < workerLoad cs q.holder_id ||
  (workerLoad cs p.holder_id == workerLoad cs q.holder_id && p.start_date < q.start_date)

/-- The non-strict counterpart of `betterWorker`: at most the load of the
other, with ties at most the other's start date. -/
def loadKeyLE (cs : List Complaint) (p q : Position) : Prop :=
  workerLoad cs p.holder_id < workerLoad cs q.holder_id ∨
  (workerLoad cs p.holder_id = workerLoad cs q.holder_id ∧ p.start_date ≤ q.start_date)

/-- Folding `betterWorker` over the candidate list, keeping the best so far. -/
def pickBest (cs : List Complaint) (acc : Position) (l : List Position) : Position :=
  l.foldl (fun b p => if betterWorker cs p b then p else b) acc

lemma loadKeyLE_refl (cs : List Complaint) (p : Position) : loadKeyLE cs p p :=
  Or.inr ⟨rfl, Nat.le_refl _⟩

lemma loadKeyLE_trans {cs : List Complaint} {p q r : Position}
    (h1 : loadKeyLE cs p q) (h2 : loadKeyLE cs q r) : loadKeyLE cs p r := by
  unfold loadKeyLE at h1 h2 ⊢
  omega

lemma betterWorker_le {cs : List Complaint} {p q : Position}
    (h : betterWorker cs p q = true) : loadKeyLE cs p q := by
  simp only [betterWorker, Bool.or_eq_true, Bool.and_eq_true, decide_eq_true_eq,
    beq_iff_eq] at h
  unfold loadKeyLE
  omega

lemma betterWorker_false_le {cs : List Complaint} {p q : Position}
    (h : betterWorker cs p q = false) : loadKeyLE cs q p := by
  simp only [betterWorker, Bool.or_eq_false_iff, Bool.and_eq_false_iff,
    decide_eq_false_iff_not, Nat.not_lt, beq_eq_false_iff_ne, ne_eq] at h
  unfold loadKeyLE
  omega

lemma pickBest_spec (cs : List Complaint) :
    ∀ (l : List Position) (acc : Position),
      (pickBest cs acc l = acc ∨ pickBest cs acc l ∈ l) ∧
      loadKeyLE cs (pickBest cs acc l) acc ∧
      (∀ q ∈ l, loadKeyLE cs (pickBest cs acc l) q) := by
  intro l
  induction l with
  | nil =>
    intro acc
    exact ⟨Or.inl rfl, loadKeyLE_refl cs acc, by simp⟩
  | cons p rest ih =>
    intro acc
    have hstep : pickBest cs acc (p :: rest) =
        pickBest cs (if betterWorker cs p acc then p else acc) rest := rfl
    by_cases hb : betterWorker cs p acc = true
    · rw [hstep, if_pos hb]
      obtain ⟨hmem, hacc, hall⟩ := ih p
      have hpa : loadKeyLE cs p acc := betterWorker_le hb
      refine ⟨?_, loadKeyLE_trans hacc hpa, ?_⟩
      · rcases hmem with h | h
        · exact Or.inr (by rw [h]; exact List.mem_cons_self p rest)
        · exact Or.inr (List.mem_cons_of_mem _ h)
      · intro q hq
        rcases List.mem_cons.mp hq with rfl | hq'
        · exact hacc
        · exact hall q hq'
    · rw [hstep, if_neg hb]
      obtain ⟨hmem, hacc, hall⟩ := ih acc
      have hap : loadKeyLE cs acc p :=
        betterWorker_false_le (Bool.not_eq_true _ ▸ hb)
      refine ⟨?_, hacc, ?_⟩
      · rcases hmem with h | h
        · exact Or.inl h
        · exact Or.inr (List.mem_cons_of_mem _ h)
      · intro q hq
        rcases List.mem_cons.mp hq with rfl | hq'
        · exact loadKeyLE_trans hacc hap
        · exact hall q hq'

/-- Modelled from the spec: `selectWorker(villageId)` (§4.4) — among the
WORKERs with an active position scoped to the village, the one with the
fewest non-terminal complaints, ties broken by earliest `start_date`;
`none` when no worker is scoped to the village. -/
def selectWorker (st : Store) (now : Nat) (villageId : Nat) : Option Nat :=
  match workerCandidates now st.positions villageId with
  | [] => none
  | p :: rest => some (pickBest st.complaints p rest).holder_id

/-- Modelled from the spec: `createComplaint` (§6) running the assignment
engine synchronously (§4.3's `(none) → OPEN` row and §4.4): with a selected
worker the complaint is `ASSIGNED` to them, otherwise it remains `OPEN`
and unassigned — the function is total, so no error is raised. -/
def createComplaint (st : Store) (now : Nat) (villageId : Nat) (desc : String)
    (mobile : Option String) (newId : Nat) : Complaint :=
  let base : Complaint :=
    { id := newId, village_id := villageId, description := desc, mobile_number := mobile
    , status := Status.OPEN, assigned_worker_id := none, comments := [], media := [] }
  match selectWorker st now villageId with
  | none => base
  | some w => { base with status := Status.ASSIGNED, assigned_worker_id := some w }

/-! ## Theorem for claim C7 -/

/-- C7: `selectWorker` returns `none` exactly when no WORKER holds an active
position scoped to the village — and then a created complaint remains
`OPEN` and unassigned with no error — and any returned worker holds such a
position and minimizes the non-terminal load, ties broken by earliest
position `start_date`. -/
theorem selectWorker_policy (st : Store) (now villageId newId : Nat) (desc : String)
    (mobile : Option String) :
    (selectWorker st now villageId = none ↔
      workerCandidates now st.positions villageId = []) ∧
    (∀ w, selectWorker st now villageId = some w →
      ∃ p, p ∈ workerCandidates now st.positions villageId ∧ p.holder_id = w ∧
        ∀ q ∈ workerCandidates now st.positions villageId,
          workerLoad st.complaints w < workerLoad st.complaints q.holder_id ∨
          (workerLoad st.complaints w = workerLoad st.complaints q.holder_id ∧
            p.start_date ≤ q.start_date)) ∧
    (workerCandidates now st.positions villageId = [] →
      (createComplaint st now villageId desc mobile newId).status = Status.OPEN ∧
      (createComplaint st now villageId desc mobile newId).assigned_worker_id = none) := by
  refine ⟨?_, ?_, ?_⟩
  · cases hc : workerCandidates now st.positions villageId with
    | nil => simp [selectWorker, hc]
    | cons p rest => simp [selectWorker, hc]
  · intro w hw
    cases hc : workerCandidates now st.positions villageId with
    | nil =>
      unfold selectWorker at hw
      rw [hc] at hw
      exact absurd hw (by simp)
    | cons p rest =>
      unfold selectWorker at hw
      rw [hc] at hw
      dsimp only at hw
      injection hw with hw
      obtain ⟨hmem, hacc, hall⟩ := pickBest_spec st.complaints rest p
      refine ⟨pickBest st.complaints p rest, ?_, hw, ?_⟩
      · rcases hmem with h | h
        · rw [h]; exact List.mem_cons_self p rest
        · exact List.mem_cons_of_mem _ h
      · intro q hq
        have : loadKeyLE st.complaints (pickBest st.complaints p rest) q := by
          rcases List.mem_cons.mp hq with rfl | hq'
          · exact hacc
          · exact hall q hq'
        rw [← hw]
        exact this
  · intro hc
    have hn : selectWorker st now villageId = none := by
      unfold selectWorker
      rw [hc]
    simp [createComplaint, hn]

/-- A store over the demo geography with two workers in village 3: worker 10
(one assigned complaint, serving since day 5) and worker 11 (no load,
serving since day 2). -/
def demoStore : Store :=
  { geography := demoGeo
  , positions := [⟨10, Role.WORKER, some 3, 5, none⟩, ⟨11, Role.WORKER, some 3, 2, none⟩]
  , complaints := [{ id := 9, village_id := 3, description := "heap", mobile_number := none
                   , status := Status.ASSIGNED, assigned_worker_id := some 10
                   , comments := [], media := [] }] }

/-- C7 witness: in the demo store the engine selects worker 11 (lowest
load), and that choice minimizes the load/seniority key over all
candidates. -/
theorem selectWorker_policy_witness :
    ∃ p, p ∈ workerCandidates 0 demoStore.positions 3 ∧ p.holder_id = 11 ∧
      ∀ q ∈ workerCandidates 0 demoStore.positions 3,
        workerLoad demoStore.complaints 11 < workerLoad demoStore.complaints q.holder_id ∨
        (workerLoad demoStore.complaints 11 = workerLoad demoStore.complaints q.holder_id ∧
          p.start_date ≤ q.start_date) :=
  (selectWorker_policy demoStore 0 3 0 "" none).2.1 11 rfl

end SBMG
